import Mathlib

/-!
Verification of the change-tracking and reconciliation engine of the
Databricks planning app (`src/databricks_utils.py`) against its
natural-language specification.

The Python source is shallowly embedded: dictionaries become association
lists, Python list indexing (with its negative-index wrap-around) becomes
`pyIndex`, the Delta merge that `save_to_databricks` issues becomes a
`MergeOp` record holding exactly the condition string, update-set mapping,
source rows and insert flag the source constructs, and each Dash callback
becomes a function from its inputs and `State` values to its `Output`
values.
-/

namespace VscDev

/-- A calendar date as produced by Python's `datetime.date`. -/
structure PyDate where
  year : Nat
  month : Nat
  day : Nat
deriving DecidableEq, Repr

/-- A dynamically typed cell value of a grid row (Python values). -/
inductive Value where
  | str (s : String)
  | date (d : PyDate)
  | int (n : Int)
  | null
deriving DecidableEq, Repr

/-- A grid row: a Python dict from column name to value, embedded as an
association list (keys unique, insertion ordered). -/
def Row := List (String × Value)

instance : DecidableEq Row := by unfold Row; infer_instance

instance : Inhabited Row := ⟨([] : List (String × Value))⟩

instance : Repr Row := by unfold Row; infer_instance

/-- Python `key in row` / `row[key]`: first binding of the key. -/
def rowLookup (key : String) (r : Row) : Option Value :=
  List.lookup key r

/-- Python `row[key] = v`: replace the value at `key`, keeping order
(the key is present in every use below). -/
def rowSet (r : Row) (key : String) (v : Value) : Row :=
  r.map (fun p => if p.1 = key then (p.1, v) else p)

/-- A row of the fixed metadata table
`advancinglake.default.databricks_plan_config_table` used by
`get_primary_keys`. -/
structure MetaRow where
  table_catalog : String
  table_schema : String
  table_name : String
  column_name : String
deriving DecidableEq, Repr

/-- Errors raised inside the save path.  The source signals all of them as
Python exceptions; `save_to_databricks` wraps them in a generic
`Exception` whose message names the table, and `save_data` turns that
into a status string.  We keep them structured. -/
inductive SaveError where
  /-- `ValueError` from unpacking `table_name.split(".")` into three
  names when the identifier does not have exactly three parts. -/
  | malformedIdentifier
  /-- `ValueError("Keine Primärschlüssel gefunden für <table>")`. -/
  | noPrimaryKey (table : String)
  /-- `IndexError` from `row_data[index]`. -/
  | indexOutOfRange
deriving DecidableEq, Repr

/-- Python `s.split(sep)` for a single-character separator `sep`, on the
characters of `s`: `n` separator occurrences give `n + 1` (possibly
empty) parts. -/
def splitOnChar (sep : Char) : List Char → List (List Char)
  | [] => [[]]
  | c :: cs =>
    if c = sep then
      [] :: splitOnChar sep cs
    else
      match splitOnChar sep cs with
      | [] => [[c]]
      | t :: ts => (c :: t) :: ts

/-- Embeds `get_primary_keys` (`databricks_utils.py` lines 199-220):
`catalog, schema, table = table_name.split(".")` raises `ValueError`
unless the split has exactly three parts; otherwise the metadata table is
filtered by exact equality on the three parts and the `column_name`
field is projected, in storage-return order.  `meta` stands for the rows
of the metadata table as the backend returns them. -/
def get_primary_keys (meta : List MetaRow) (table_name : String) :
    Except SaveError (List String) :=
  match splitOnChar '.' table_name.toList with
  | [catalog, schema, table] =>
      Except.ok ((meta.filter (fun r =>
        r.table_catalog == String.mk catalog &&
        r.table_schema == String.mk schema &&
        r.table_name == String.mk table)).map (fun r => r.column_name))
  | _ => Except.error SaveError.malformedIdentifier

/-- Normalisation CPython applies to a sequence index: a negative index
has the length added once. -/
def pyNorm (len : Nat) (i : Int) : Int :=
  if i < 0 then i + len else i

/-- Python list indexing `xs[i]`: a negative index counts from the end
(`xs[-1]` is the last element); an index outside `[-len, len)` raises
`IndexError` (here `none`). -/
def pyIndex (xs : List Row) (i : Int) : Option Row :=
  if h : 0 ≤ pyNorm xs.length i ∧ pyNorm xs.length i < (xs.length : Int) then
    some (xs.get ⟨(pyNorm xs.length i).toNat, by omega⟩)
  else
    none

/-- Embeds the list comprehension
`row_data = [row_data[index] for index in changed_rows_id]`
(line 68): evaluates left to right, the first `IndexError` aborts. -/
def projectRows (row_data : List Row) : List Int → Except SaveError (List Row)
  | [] => Except.ok []
  | i :: rest =>
    match pyIndex row_data i with
    | none => Except.error SaveError.indexOutOfRange
    | some r =>
      match projectRows row_data rest with
      | Except.ok rs => Except.ok (r :: rs)
      | Except.error e => Except.error e

/-- The Delta merge operation `save_to_databricks` issues, with the
fields exactly as the source builds them: `condition` is the
`merge_condition` string of line 72, `updateSet` the
`{col: f"source.{col}"}` mapping of line 84, `sourceRows` the projected
changed rows aliased `source`, and `insertAll` records the
`whenNotMatchedInsertAll` clause of line 85. -/
structure MergeOp where
  condition : String
  sourceRows : List Row
  updateSet : List (String × String)
  insertAll : Bool
deriving DecidableEq, Repr

/-- Embeds `save_to_databricks` (lines 47-91).  `schemaCols` stands for
`spark.table(table_name).schema` column names, which are also the
columns of `changed_data` (line 69).  The function returns the merge it
would execute instead of executing it; every exception path returns the
structured error instead. -/
def save_to_databricks (meta : List MetaRow) (schemaCols : List String)
    (changed_rows_id : List Int) (table_name : String)
    (row_data : List Row) : Except SaveError MergeOp :=
  match get_primary_keys meta table_name with
  | Except.error e => Except.error e
  | Except.ok unique_keys =>
    if unique_keys.isEmpty then
      Except.error (SaveError.noPrimaryKey table_name)
    else
      match projectRows row_data changed_rows_id with
      | Except.error e => Except.error e
      | Except.ok rows =>
        Except.ok
          { condition := String.intercalate " AND "
              (unique_keys.map (fun key =>
                "target." ++ key ++ " = source." ++ key)),
            sourceRows := rows,
            updateSet := (schemaCols.filter
              (fun c => !(unique_keys.contains c))).map
                (fun c => (c, "source." ++ c)),
            insertAll := true }

/-! ### Date coercion: `datetime.strptime(date_str, "%Y-%m-%d").date()`

CPython's `_strptime` compiles the format into an anchored regular
expression: `%Y` is four digits, the literal dashes match themselves,
`%m` is `1[0-2]|0[1-9]|[1-9]` and `%d` is `3[01]|[12]\d|0[1-9]|[1-9]`
(one or two digits, leading zero optional, value at most 12 resp. 31),
and any unconverted trailing data raises `ValueError`.  Because every
token of this format is all-digits and delimited by the dashes, matching
is equivalent to: split the string at every dash into exactly three
tokens, require four digits / a 1-2 digit value in 1..12 / a 1-2 digit
value in 1..31, then `datetime(...).date()` validates the day against the
month length and raises `ValueError` otherwise (year 0 cannot arise from
four digits only as `0000`, which `MINYEAR = 1` rejects). -/

/-- ASCII digit test (the `%m`/`%d`/`%Y` character classes). -/
def isDigitChar (c : Char) : Bool :=
  decide ('0' ≤ c) && decide (c ≤ '9')

/-- Value of an all-digit token, as Python's `int()` computes it. -/
def digitsToNat (cs : List Char) : Nat :=
  cs.foldl (fun a c => a * 10 + (c.toNat - 48)) 0

/-- Split a character list at every dash (the literal `-` of the
format). -/
def splitDash (cs : List Char) : List (List Char) :=
  splitOnChar '-' cs

/-- The `%Y` token: exactly four digits. -/
def validYearTok (cs : List Char) : Bool :=
  cs.length == 4 && cs.all isDigitChar

/-- The `%m` token: one or two digits, value in 1..12. -/
def validMonthTok (cs : List Char) : Bool :=
  (cs.length == 1 || cs.length == 2) && cs.all isDigitChar &&
    (decide (1 ≤ digitsToNat cs) && decide (digitsToNat cs ≤ 12))

/-- The `%d` token: one or two digits, value in 1..31. -/
def validDayTok (cs : List Char) : Bool :=
  (cs.length == 1 || cs.length == 2) && cs.all isDigitChar &&
    (decide (1 ≤ digitsToNat cs) && decide (digitsToNat cs ≤ 31))

/-- Gregorian leap-year rule, as `calendar.isleap` / `datetime`. -/
def isLeapYear (y : Nat) : Bool :=
  y % 4 == 0 && (y % 100 != 0 || y % 400 == 0)

/-- Length of a month, as `datetime` validates the day. -/
def daysInMonth (y m : Nat) : Nat :=
  if m = 2 then (if isLeapYear y then 29 else 28)
  else if m = 4 ∨ m = 6 ∨ m = 9 ∨ m = 11 then 30
  else 31

/-- `datetime.date(y, m, d)` construction: validates year, month and
day ranges, raising `ValueError` otherwise. -/
def pydate (y m d : Nat) : Except String PyDate :=
  if 1 ≤ y ∧ y ≤ 9999 ∧ 1 ≤ m ∧ m ≤ 12 ∧ 1 ≤ d ∧ d ≤ daysInMonth y m then
    Except.ok ⟨y, m, d⟩
  else
    Except.error "day is out of range for month"

/-- `datetime.strptime(s, "%Y-%m-%d").date()` on the characters of
`s`, per the token analysis above. -/
def parseYMD (cs : List Char) : Except String PyDate :=
  match splitDash cs with
  | [yt, mt, dt] =>
    if validYearTok yt && validMonthTok mt && validDayTok dt then
      pydate (digitsToNat yt) (digitsToNat mt) (digitsToNat dt)
    else
      Except.error "time data does not match format"
  | _ => Except.error "time data does not match format"

/-- `datetime.strptime(s, "%Y-%m-%d").date()`. -/
def strptimeYMDdate (s : String) : Except String PyDate :=
  parseYMD s.toList

/-- Decimal digit character for `n % 10`. -/
def dchar (n : Nat) : Char :=
  if n % 10 = 0 then '0' else if n % 10 = 1 then '1'
  else if n % 10 = 2 then '2' else if n % 10 = 3 then '3'
  else if n % 10 = 4 then '4' else if n % 10 = 5 then '5'
  else if n % 10 = 6 then '6' else if n % 10 = 7 then '7'
  else if n % 10 = 8 then '8' else '9'

/-- Two-digit zero-padded decimal rendering (faithful for `n < 100`). -/
def pad2 (n : Nat) : List Char :=
  [dchar (n / 10), dchar n]

/-- Four-digit zero-padded decimal rendering (faithful for `n < 10000`). -/
def pad4 (n : Nat) : List Char :=
  [dchar (n / 1000), dchar (n / 100), dchar (n / 10), dchar n]

/-- A date written in zero-padded `YYYY-MM-DD` display form — the
specification's fixed date format, built here to state the round trip
(not part of the source). -/
def formatYMD (y m d : Nat) : List Char :=
  pad4 y ++ '-' :: (pad2 m ++ '-' :: pad2 d)

/-! ### The `save_data` callback (lines 250-294) -/

/-- The `DateDATE` conversion applied to one row of the grid inside
`save_data` (lines 279-287): if the key `DateDATE` is present and holds
a string, parse it and store the date object in place; a parse failure
raises `ValueError("Error converting DateDATE to date: ...")`; a
non-string value makes `strptime` raise `TypeError`, which the inner
`except ValueError` does not catch. -/
def convertDateDATE (row : Row) : Except String Row :=
  match rowLookup "DateDATE" row with
  | none => Except.ok row
  | some (Value.str date_str) =>
    match strptimeYMDdate date_str with
    | Except.ok date_obj =>
        Except.ok (rowSet row "DateDATE" (Value.date date_obj))
    | Except.error e =>
        Except.error ("Error converting DateDATE to date: " ++ e)
  | some _ =>
    Except.error "strptime argument must be str"

/-- The `for row in row_data` loop of lines 279-287, which mutates the
list in place.  `Sum.inl rows` is the fully converted list; on the first
failing row the loop raises, leaving earlier rows converted and the
failing row and its successors untouched: `Sum.inr (state, msg)` returns
that partially mutated list together with the exception message. -/
def convertAll : List Row → Sum (List Row) (List Row × String)
  | [] => Sum.inl []
  | r :: rs =>
    match convertDateDATE r with
    | Except.ok r2 =>
      match convertAll rs with
      | Sum.inl rs2 => Sum.inl (r2 :: rs2)
      | Sum.inr (rs2, msg) => Sum.inr (r2 :: rs2, msg)
    | Except.error msg => Sum.inr (r :: rs, msg)

/-- The state of the `row_data` list after the conversion loop ran over
it, whether or not the loop raised. -/
def convertAllState (grid : List Row) : List Row :=
  match convertAll grid with
  | Sum.inl rs => rs
  | Sum.inr (st, _) => st

/-- Message with which `save_to_databricks` wraps any inner exception
(line 89); the structured error is kept alongside in `SaveOutcome`. -/
def saveErrorMessage (table_name : String) (_e : SaveError) : String :=
  "Failed to save data to Databricks table " ++ table_name

/-- Everything observable about one invocation of the `save_data`
callback: the status string it returns to `loading-output-2`, the state
of the `row_data` list after the call (the loop mutates it in place),
the merge issued against the backing store (`none` when
`save_to_databricks` was never reached or failed before merging), and
the `changed-rows-store` content after the call — the callback reads the
store as `State` and its only `Output` is the status div, so the store
is never written. -/
structure SaveOutcome where
  status : String
  row_data : List Row
  merge : Option MergeOp
  changed_rows_store : List Int
deriving DecidableEq, Repr

/-- Embeds the `save_data` callback (lines 250-294). -/
def save_data (meta : List MetaRow) (schemaCols : List String)
    (n_clicks : Nat) (changed_rows_id : List Int) (table_name : String)
    (row_data : List Row) : SaveOutcome :=
  if n_clicks > 0 then
    match convertAll row_data with
    | Sum.inr (st, msg) =>
      { status := "Error with saving data: " ++ msg,
        row_data := st, merge := none,
        changed_rows_store := changed_rows_id }
    | Sum.inl rows2 =>
      match save_to_databricks meta schemaCols changed_rows_id table_name
          rows2 with
      | Except.ok m =>
        { status := "Data was successfully saved!",
          row_data := rows2, merge := some m,
          changed_rows_store := changed_rows_id }
      | Except.error e =>
        { status := "Error with saving data: " ++
            saveErrorMessage table_name e,
          row_data := rows2, merge := none,
          changed_rows_store := changed_rows_id }
  else
    { status := "No Changes to be saved.", row_data := row_data,
      merge := none, changed_rows_store := changed_rows_id }

/-! ### The `track_changes` callback (lines 223-247) -/

/-- One entry of the grid's `cellValueChanged` event; `track_changes`
reads `int(entry.get("rowId"))`. -/
structure CellChange where
  rowId : Int
deriving DecidableEq, Repr

/-- Embeds the `track_changes` callback (lines 230-247): a `None` store
is replaced by `[]`; a non-empty event list is appended (`extend`) to
the store.  The source performs no deduplication. -/
def track_changes (changed_cells : List CellChange)
    (changed_rows_id : Option (List Int)) : List Int :=
  let ids := changed_rows_id.getD []
  if changed_cells.isEmpty then
    ids
  else
    ids ++ changed_cells.map (fun entry => entry.rowId)

/-! ### Column definitions (lines 136-196) -/

/-- The `type_mapping` dict of `get_column_types` (lines 146-156). -/
def type_mapping : List (String × String) :=
  [("IntegerType", "numericColumn"), ("LongType", "numericColumn"),
   ("FloatType", "numericColumn"), ("DoubleType", "numericColumn"),
   ("DecimalType", "numericColumn"), ("StringType", "textColumn"),
   ("BooleanType", "booleanColumn"), ("DateType", "dateColumn"),
   ("TimestampType", "dateColumn")]

/-- Embeds `get_column_types` (lines 136-164): the schema is the list of
(field name, Spark type-class name) pairs; unknown type names default to
`textColumn`. -/
def get_column_types (table_schema : List (String × String)) :
    List (String × String) :=
  table_schema.map (fun f =>
    (f.1, ((type_mapping.lookup f.2).getD "textColumn")))

/-- Python evaluates `True not in unique_keys` with `==` against each
element; `True == s` is `False` for every string `s`, so the membership
test is always false and the expression always `True`. -/
def pyTrueNotInStringList (_keys : List String) : Bool :=
  true

/-- One entry of the `columnDefs` list built for Dash AG-Grid;
`cellStyle` is the style dict, empty for non-key columns. -/
structure ColumnDef where
  headerName : String
  field : String
  editable : Bool
  type : String
  filter : Bool
  cellStyle : List (String × String)
deriving DecidableEq, Repr

/-- Embeds `generate_column_defs` (lines 167-196).  Line 189 is
`"editable": True not in unique_keys` — see `pyTrueNotInStringList`; an
exception from `get_primary_keys` propagates (`or []` only replaces a
falsy result). -/
def generate_column_defs (meta : List MetaRow)
    (table_schema : List (String × String)) (table_name : String) :
    Except SaveError (List ColumnDef) :=
  match get_primary_keys meta table_name with
  | Except.error e => Except.error e
  | Except.ok keys =>
    let unique_keys := if keys.isEmpty then [] else keys
    Except.ok ((get_column_types table_schema).map (fun c =>
      { headerName := c.1, field := c.1,
        editable := pyTrueNotInStringList unique_keys,
        type := c.2, filter := true,
        cellStyle := if unique_keys.contains c.1 then
            [("backgroundColor", "rgba(241, 137, 0, 0.2)")]
          else
            [] }))

/-! ### Fixtures for concrete instances

A metadata table declaring column `id` as the key of table `c.s.t`, a
two-row grid for that table, and a grid carrying `DateDATE` fields. -/

/-- Metadata table with a single key row for table `c.s.t`. -/
def exMeta : List MetaRow := [⟨"c", "s", "t", "id"⟩]

/-- Schema columns of table `c.s.t`. -/
def exSchema : List String := ["id", "name"]

/-- A two-row grid for `c.s.t`. -/
def exGrid : List Row := [[("id", Value.int 1)], [("id", Value.int 2)]]

/-- A grid row with a well-formed `DateDATE` string. -/
def exRowGood : Row := [("id", Value.int 1), ("DateDATE", Value.str "2024-02-13")]

/-- A grid row with a malformed `DateDATE` string. -/
def exRowBad : Row := [("id", Value.int 2), ("DateDATE", Value.str "13/02/2024")]

/-- The merge `save_to_databricks` issues for table `c.s.t` when the
source row is `exGrid` row 1. -/
def exMerge : MergeOp :=
  { condition := "target.id = source.id",
    sourceRows := [[("id", Value.int 2)]],
    updateSet := [("name", "source.name")],
    insertAll := true }

/-! ### Helper lemmas -/

lemma pyIndex_eq_none (xs : List Row) (i : Int)
    (h : i < -(xs.length : Int) ∨ (xs.length : Int) ≤ i) :
    pyIndex xs i = none := by
  have hn : ¬ (0 ≤ pyNorm xs.length i ∧ pyNorm xs.length i < (xs.length : Int)) := by
    unfold pyNorm; split_ifs <;> omega
  simp [pyIndex, hn]

lemma projectRows_error_of_bad (grid : List Row) :
    ∀ ids : List Int, (∃ i ∈ ids, pyIndex grid i = none) →
    projectRows grid ids = Except.error SaveError.indexOutOfRange := by
  intro ids
  induction ids with
  | nil => rintro ⟨i, hmem, _⟩; cases hmem
  | cons j rest ih =>
    rintro ⟨i, hmem, hnone⟩
    rw [List.mem_cons] at hmem
    rcases hj : pyIndex grid j with _ | r
    · simp [projectRows, hj]
    · rcases hmem with rfl | hmem
      · rw [hj] at hnone; cases hnone
      · have hrest := ih ⟨i, hmem, hnone⟩
        simp [projectRows, hj, hrest]

lemma projectRows_ok_length (grid : List Row) :
    ∀ (ids : List Int) (rs : List Row),
    projectRows grid ids = Except.ok rs → rs.length = ids.length := by
  intro ids
  induction ids with
  | nil =>
    intro rs h
    simp only [projectRows] at h
    cases h; rfl
  | cons j rest ih =>
    intro rs h
    simp only [projectRows] at h
    rcases hj : pyIndex grid j with _ | r <;> rw [hj] at h
    · cases h
    · rcases hrest : projectRows grid rest with e | rs2 <;> rw [hrest] at h
      · cases h
      · cases h
        have := ih rs2 hrest
        simp [this]

lemma toNat_dchar (n : Nat) : (dchar n).toNat = 48 + n % 10 := by
  have h10 : n % 10 < 10 := by omega
  unfold dchar
  generalize n % 10 = r at h10 ⊢
  interval_cases r <;> decide

lemma isDigit_dchar (n : Nat) : isDigitChar (dchar n) = true := by
  have h10 : n % 10 < 10 := by omega
  unfold dchar
  generalize n % 10 = r at h10 ⊢
  interval_cases r <;> decide

lemma dchar_ne_dash (n : Nat) : dchar n ≠ '-' := by
  have h10 : n % 10 < 10 := by omega
  unfold dchar
  generalize n % 10 = r at h10 ⊢
  interval_cases r <;> decide

lemma digitsToNat_pad2 (m : Nat) (hm : m < 100) : digitsToNat (pad2 m) = m := by
  simp only [digitsToNat, pad2, List.foldl_cons, List.foldl_nil, toNat_dchar]
  omega

lemma digitsToNat_pad4 (y : Nat) (hy : y < 10000) : digitsToNat (pad4 y) = y := by
  simp only [digitsToNat, pad4, List.foldl_cons, List.foldl_nil, toNat_dchar]
  omega

lemma pad2_all_digits (n : Nat) : (pad2 n).all isDigitChar = true := by
  simp [pad2, isDigit_dchar]

lemma pad4_all_digits (n : Nat) : (pad4 n).all isDigitChar = true := by
  simp [pad4, isDigit_dchar]

lemma pad2_ne_dash (n : Nat) : ∀ c ∈ pad2 n, c ≠ '-' := by
  intro c hc
  simp only [pad2, List.mem_cons, List.not_mem_nil, or_false] at hc
  rcases hc with h | h <;> (subst h; exact dchar_ne_dash _)

lemma pad4_ne_dash (n : Nat) : ∀ c ∈ pad4 n, c ≠ '-' := by
  intro c hc
  simp only [pad4, List.mem_cons, List.not_mem_nil, or_false] at hc
  rcases hc with h | h | h | h <;> (subst h; exact dchar_ne_dash _)

lemma splitOnChar_append (sep : Char) (ys : List Char) :
    ∀ xs : List Char, (∀ c ∈ xs, c ≠ sep) →
    splitOnChar sep (xs ++ sep :: ys) = xs :: splitOnChar sep ys := by
  intro xs
  induction xs with
  | nil => intro _; simp [splitOnChar]
  | cons c cs ih =>
    intro h
    have hc : c ≠ sep := h c (by simp)
    simp only [List.cons_append, splitOnChar, if_neg hc, List.append_eq]
    rw [ih (fun x hx => h x (by simp [hx]))]

lemma splitOnChar_no_sep (sep : Char) :
    ∀ xs : List Char, (∀ c ∈ xs, c ≠ sep) → splitOnChar sep xs = [xs] := by
  intro xs
  induction xs with
  | nil => intro _; rfl
  | cons c cs ih =>
    intro h
    have hc : c ≠ sep := h c (by simp)
    simp only [splitOnChar, if_neg hc]
    rw [ih (fun x hx => h x (by simp [hx]))]

lemma daysInMonth_le_31 (y m : Nat) : daysInMonth y m ≤ 31 := by
  unfold daysInMonth
  split_ifs <;> omega

lemma convertAll_append_inr (r : Row) (post : List Row) (msg : String) :
    ∀ pre : List Row, (∀ p ∈ pre, (convertDateDATE p).isOk = true) →
    convertDateDATE r = Except.error msg →
    ∃ st, convertAll (pre ++ r :: post) = Sum.inr (st, msg) := by
  intro pre
  induction pre with
  | nil =>
    intro _ hr
    refine ⟨r :: post, ?_⟩
    simp [convertAll, hr]
  | cons p ps ih =>
    intro hpre hr
    rcases hcp : convertDateDATE p with e | p2
    · have := hpre p (by simp)
      rw [hcp] at this; cases this
    · obtain ⟨st, hst⟩ := ih (fun q hq => hpre q (by simp [hq])) hr
      refine ⟨p2 :: st, ?_⟩
      simp [convertAll, hcp, hst]

lemma convertAll_inr_of_mem (r : Row) (msg : String) :
    ∀ grid : List Row, r ∈ grid → convertDateDATE r = Except.error msg →
    ∃ st m2, convertAll grid = Sum.inr (st, m2) := by
  intro grid
  induction grid with
  | nil => intro h; cases h
  | cons g gs ih =>
    intro hmem hr
    rcases hcg : convertDateDATE g with e | g2
    · exact ⟨g :: gs, e, by simp [convertAll, hcg]⟩
    · rw [List.mem_cons] at hmem
      rcases hmem with rfl | hmem
      · rw [hcg] at hr; cases hr
      · obtain ⟨st, m2, hst⟩ := ih hmem hr
        exact ⟨g2 :: st, m2, by simp [convertAll, hcg, hst]⟩

lemma save_data_row_data (meta : List MetaRow) (sc : List String)
    (n : Nat) (ids : List Int) (tbl : String) (grid : List Row) :
    (save_data meta sc n ids tbl grid).row_data =
      if n > 0 then convertAllState grid else grid := by
  by_cases hn : n > 0
  · rcases hc : convertAll grid with rs | ⟨st, msg⟩
    · rcases hsv : save_to_databricks meta sc ids tbl rs with e | m <;>
        simp [save_data, convertAllState, hn, hc, hsv]
    · simp [save_data, convertAllState, hn, hc]
  · simp [save_data, hn]

/-! ### Claim theorems -/

/-- C7: for every table identifier that does not split into exactly three
dot-separated parts, key resolution (`get_primary_keys`) fails with an
error rather than returning a key list. -/
theorem get_primary_keys_malformed (meta : List MetaRow) (name : String)
    (h : (splitOnChar '.' name.toList).length ≠ 3) :
    get_primary_keys meta name = Except.error SaveError.malformedIdentifier := by
  unfold get_primary_keys
  rcases hsp : splitOnChar '.' name.toList with _ | ⟨a, _ | ⟨b, _ | ⟨c, _ | ⟨d, ds⟩⟩⟩⟩ <;>
      first | rfl | (rw [hsp] at h; simp at h)

/-- C7 witness: the two-part identifier `a.b` is rejected. -/
theorem get_primary_keys_malformed_witness :
    (splitOnChar '.' "a.b".toList).length ≠ 3 ∧
    get_primary_keys [] "a.b" = Except.error SaveError.malformedIdentifier :=
  ⟨by decide, get_primary_keys_malformed [] "a.b" (by decide)⟩

/-- C4: when key resolution returns an empty list of key columns, the save
fails with the no-primary-key error and the merge is never built (for the
callback, `merge = none` whatever the click count or grid), so nothing is
written. -/
theorem save_no_primary_key (meta : List MetaRow) (sc : List String)
    (ids : List Int) (tbl : String)
    (h : get_primary_keys meta tbl = Except.ok []) :
    (∀ grid : List Row,
      save_to_databricks meta sc ids tbl grid =
        Except.error (SaveError.noPrimaryKey tbl))
    ∧ (∀ (n : Nat) (grid : List Row),
        (save_data meta sc n ids tbl grid).merge = none) := by
  have hsave : ∀ grid : List Row,
      save_to_databricks meta sc ids tbl grid =
        Except.error (SaveError.noPrimaryKey tbl) := by
    intro grid
    simp [save_to_databricks, h]
  refine ⟨hsave, ?_⟩
  intro n grid
  unfold save_data
  split
  · split
    · rfl
    · rw [hsave]
  · rfl

/-- C4 witness: an empty metadata table yields no keys for `a.b.c`; the
save aborts with the no-primary-key error and no merge. -/
theorem save_no_primary_key_witness :
    save_to_databricks [] exSchema [0] "a.b.c" exGrid =
      Except.error (SaveError.noPrimaryKey "a.b.c")
    ∧ (save_data [] exSchema 1 [0] "a.b.c" exGrid).merge = none :=
  ⟨(save_no_primary_key [] exSchema [0] "a.b.c" (by rfl)).1 exGrid,
   (save_no_primary_key [] exSchema [0] "a.b.c" (by rfl)).2 1 exGrid⟩

/-- C9: the `save_data` callback never writes the changed-rows store —
whether the save succeeds or fails, the store holds exactly the indices it
held before the call. -/
theorem save_data_preserves_store (meta : List MetaRow) (sc : List String)
    (n : Nat) (ids : List Int) (tbl : String) (grid : List Row) :
    (save_data meta sc n ids tbl grid).changed_rows_store = ids := by
  unfold save_data
  split
  · split
    · rfl
    · split <;> rfl
  · rfl

/-- C2 counterexample: recording row index 3 in two successive edit events
leaves index 3 with two occurrences in the store, not one — `track_changes`
extends without deduplicating. -/
theorem track_changes_duplicate_counterexample :
    (track_changes [⟨3⟩] (some (track_changes [⟨3⟩] (some [])))).count 3 = 2 := by
  decide

/-- C2 amended: the changed-row index collection is not deduplicated —
occurrence counts add up across edit events, and a subsequent save
projects one source row per occurrence (so a duplicated index duplicates
its row in the merge source rather than collapsing to one). -/
theorem track_changes_append_counts :
    (∀ (cells : List CellChange) (ids : List Int) (i : Int),
      (track_changes cells (some ids)).count i =
        ids.count i + (cells.map CellChange.rowId).count i)
    ∧ (∀ (grid : List Row) (ids : List Int) (rs : List Row),
        projectRows grid ids = Except.ok rs → rs.length = ids.length) := by
  constructor
  · intro cells ids i
    unfold track_changes
    rcases cells with _ | ⟨c, cs⟩
    · simp
    · simp [List.count_append]
  · exact fun grid ids rs h => projectRows_ok_length grid ids rs h

/-- C2 witness: counts add for one event carrying row 5 on a store already
holding 2 and 5; projecting the duplicated index 0 twice yields a
two-element source. -/
theorem track_changes_append_counts_witness :
    (track_changes [⟨5⟩] (some [2, 5])).count 5 =
      ([2, 5] : List Int).count 5 +
        (([⟨5⟩] : List CellChange).map CellChange.rowId).count 5
    ∧ ([[("id", Value.int 1)], [("id", Value.int 1)]] : List Row).length =
        ([0, 0] : List Int).length :=
  ⟨track_changes_append_counts.1 [⟨5⟩] [2, 5] 5,
   track_changes_append_counts.2 exGrid [0, 0]
     [[("id", Value.int 1)], [("id", Value.int 1)]] (by rfl)⟩

/-- C5 (code bug): `generate_column_defs` on a table whose key column is
`id` leaves the key column with `editable = true` — line 189 tests
`True not in unique_keys`, which is true for every list of strings — while
the distinguishing cell style is applied to exactly the key column. -/
theorem generate_column_defs_key_editable :
    generate_column_defs exMeta
        [("id", "IntegerType"), ("name", "StringType")] "c.s.t" =
      Except.ok
        [{ headerName := "id", field := "id", editable := true,
           type := "numericColumn", filter := true,
           cellStyle := [("backgroundColor", "rgba(241, 137, 0, 0.2)")] },
         { headerName := "name", field := "name", editable := true,
           type := "textColumn", filter := true, cellStyle := [] }] := by
  rfl

/-- C6 counterexample: with a two-row grid, the out-of-bounds position
`-1` does not fail the save — Python indexing silently selects the last
row, and the merge is issued with that row as source. -/
theorem save_negative_index_selects_row :
    save_to_databricks exMeta exSchema [-1] "c.s.t" exGrid =
      Except.ok exMerge := by
  rfl

/-- C6 amended: a changed-index position `i` with `i < -rowcount` or
`i ≥ rowcount` fails the save with the index error; positions in
`[-rowcount, -1]` are instead resolved to `rowcount + i` (see the
counterexample). -/
theorem save_index_out_of_range (meta : List MetaRow) (sc : List String)
    (ids : List Int) (tbl : String) (grid : List Row) (keys : List String)
    (hk : get_primary_keys meta tbl = Except.ok keys) (hne : keys ≠ [])
    (hbad : ∃ i ∈ ids, i < -(grid.length : Int) ∨ (grid.length : Int) ≤ i) :
    save_to_databricks meta sc ids tbl grid =
      Except.error SaveError.indexOutOfRange := by
  have hproj : projectRows grid ids = Except.error SaveError.indexOutOfRange := by
    apply projectRows_error_of_bad
    obtain ⟨i, hmem, hout⟩ := hbad
    exact ⟨i, hmem, pyIndex_eq_none grid i hout⟩
  have hke : keys.isEmpty = false := by
    rcases keys with _ | ⟨k, ks⟩
    · exact absurd rfl hne
    · rfl
  simp [save_to_databricks, hk, hke, hproj]

/-- C6 witness: position 5 in a two-row grid fails the save with the index
error. -/
theorem save_index_out_of_range_witness :
    save_to_databricks exMeta exSchema [5] "c.s.t" exGrid =
      Except.error SaveError.indexOutOfRange :=
  save_index_out_of_range exMeta exSchema [5] "c.s.t" exGrid ["id"]
    (by rfl) (by decide) ⟨5, by simp, by decide⟩

/-- C1: every merge actually issued matches target to source by the
conjunction of equalities over exactly the resolved key columns, updates
exactly the non-key columns of the changed-row set to the source values,
inserts the full row for unmatched rows, and carries the projected
changed rows as source. -/
theorem save_merge_shape (meta : List MetaRow) (sc : List String)
    (ids : List Int) (tbl : String) (grid : List Row) (keys : List String)
    (m : MergeOp)
    (hk : get_primary_keys meta tbl = Except.ok keys)
    (hs : save_to_databricks meta sc ids tbl grid = Except.ok m) :
    m.condition = String.intercalate " AND "
        (keys.map (fun k => "target." ++ k ++ " = source." ++ k))
    ∧ m.updateSet = (sc.filter (fun c => !(keys.contains c))).map
        (fun c => (c, "source." ++ c))
    ∧ m.insertAll = true
    ∧ projectRows grid ids = Except.ok m.sourceRows := by
  by_cases hke : keys.isEmpty
  · simp [save_to_databricks, hk, hke] at hs
  · simp only [save_to_databricks, hk] at hs
    rw [if_neg hke] at hs
    rcases hp : projectRows grid ids with e | rows <;> rw [hp] at hs
    · cases hs
    · injection hs with hm
      subst hm
      exact ⟨rfl, rfl, rfl, rfl⟩

/-- C1 witness: saving changed index 1 of the two-row grid for `c.s.t`
issues the merge `exMerge`. -/
theorem save_merge_shape_witness :
    exMerge.condition = String.intercalate " AND "
        ((["id"]).map (fun k => "target." ++ k ++ " = source." ++ k))
    ∧ exMerge.updateSet = (exSchema.filter (fun c => !((["id"]).contains c))).map
        (fun c => (c, "source." ++ c))
    ∧ exMerge.insertAll = true
    ∧ projectRows exGrid [1] = Except.ok exMerge.sourceRows :=
  save_merge_shape exMeta exSchema [1] "c.s.t" exGrid ["id"] exMerge
    (by rfl) (by rfl)

/-- C3 counterexample: the changed-index set is `[0]`, row 0 coerces
fine, yet the save fails because row 1 — not in the changed-row subset —
holds a malformed `DateDATE`; coercion is not applied "exactly to the
rows of the changed-row subset". -/
theorem date_coercion_unchanged_row_counterexample :
    (save_data exMeta ["id", "DateDATE"] 1 [0] "c.s.t"
        [exRowGood, exRowBad]).merge = none
    ∧ (save_data exMeta ["id", "DateDATE"] 1 [0] "c.s.t"
        [exRowGood, exRowBad]).status =
      "Error with saving data: Error converting DateDATE to date: time data does not match format" := by
  constructor <;> rfl

/-- C3 amended: on save, date coercion runs over every row of the full
grid (independently of the changed-index set) and targets the field
literally named `DateDATE` irrespective of declared column kinds; the
first field that fails conversion fails the whole save with an error
naming the field — but not the row — and no merge is issued. -/
theorem save_data_date_error (meta : List MetaRow) (sc : List String)
    (ids : List Int) (tbl : String) (pre post : List Row) (r : Row)
    (s e : String)
    (hpre : ∀ p ∈ pre, (convertDateDATE p).isOk = true)
    (hl : rowLookup "DateDATE" r = some (Value.str s))
    (hs : strptimeYMDdate s = Except.error e) :
    (save_data meta sc 1 ids tbl (pre ++ r :: post)).status =
      "Error with saving data: " ++ ("Error converting DateDATE to date: " ++ e)
    ∧ (save_data meta sc 1 ids tbl (pre ++ r :: post)).merge = none := by
  have hr : convertDateDATE r =
      Except.error ("Error converting DateDATE to date: " ++ e) := by
    simp [convertDateDATE, hl, hs]
  obtain ⟨st, hst⟩ := convertAll_append_inr r post _ pre hpre hr
  constructor <;> simp [save_data, hst]

/-- C3 witness: a malformed `DateDATE` in the second row fails the save
with the message naming the field, although the changed-index set `[0]`
does not contain that row and the schema declares no date kind. -/
theorem save_data_date_error_witness :
    (save_data exMeta ["id"] 1 [0] "c.s.t" ([exRowGood] ++ exRowBad :: [])).status =
      "Error with saving data: " ++
        ("Error converting DateDATE to date: " ++ "time data does not match format")
    ∧ (save_data exMeta ["id"] 1 [0] "c.s.t" ([exRowGood] ++ exRowBad :: [])).merge =
        none :=
  save_data_date_error exMeta ["id"] [0] "c.s.t" [exRowGood] [] exRowBad
    "13/02/2024" "time data does not match format"
    (by intro p hp; simp at hp; subst hp; rfl) (by rfl) (by rfl)

/-- C10: once save is clicked, the conversion pass runs over the whole
grid in place: the grid state after the call is `convertAllState grid`
whatever the changed-index set; any row with an unparseable `DateDATE`
string — changed or not — aborts the save with no merge; and a leading
row whose `DateDATE` converts is replaced by its converted form in the
in-memory grid even when a later row makes the save fail. -/
theorem save_data_mutates_full_grid (meta : List MetaRow) (sc : List String)
    (ids : List Int) (tbl : String) (grid : List Row) (r : Row) (s : String)
    (hr : r ∈ grid) (hl : rowLookup "DateDATE" r = some (Value.str s))
    (hb : (strptimeYMDdate s).isOk = false) :
    (save_data meta sc 1 ids tbl grid).merge = none
    ∧ (∀ ids2 : List Int,
        (save_data meta sc 1 ids2 tbl grid).row_data = convertAllState grid)
    ∧ (∀ (r0 r02 : Row) (rest : List Row),
        convertDateDATE r0 = Except.ok r02 →
        (save_data meta sc 1 ids tbl (r0 :: rest)).row_data.head? = some r02) := by
  refine ⟨?_, ?_, ?_⟩
  · rcases hp : strptimeYMDdate s with e | d
    · have hr2 : convertDateDATE r =
          Except.error ("Error converting DateDATE to date: " ++ e) := by
        simp [convertDateDATE, hl, hp]
      obtain ⟨st, m2, hst⟩ := convertAll_inr_of_mem r _ grid hr hr2
      simp [save_data, hst]
    · rw [hp] at hb
      exact Bool.noConfusion hb
  · intro ids2
    rw [save_data_row_data]
    simp
  · intro r0 r02 rest hc
    rcases hrest : convertAll rest with rs | ⟨st, msg⟩
    · rcases hsv : save_to_databricks meta sc ids tbl (r02 :: rs) with e | m <;>
        simp [save_data, convertAll, hc, hrest, hsv]
    · simp [save_data, convertAll, hc, hrest]

/-- C10 witness: with the grid `[exRowGood, exRowBad]` and changed index
9 (nowhere near the bad row), the save fails with no merge, and the good
leading row is left converted in the in-memory grid. -/
theorem save_data_mutates_full_grid_witness :
    (save_data exMeta ["id"] 1 [9] "c.s.t" (exRowGood :: [exRowBad])).merge = none
    ∧ (save_data exMeta ["id"] 1 [9] "c.s.t" (exRowGood :: [exRowBad])).row_data.head? =
        some [("id", Value.int 1), ("DateDATE", Value.date ⟨2024, 2, 13⟩)] :=
  ⟨(save_data_mutates_full_grid exMeta ["id"] [9] "c.s.t"
      (exRowGood :: [exRowBad]) exRowBad "13/02/2024"
      (by simp) (by rfl) (by rfl)).1,
   (save_data_mutates_full_grid exMeta ["id"] [9] "c.s.t"
      (exRowGood :: [exRowBad]) exRowBad "13/02/2024"
      (by simp) (by rfl) (by rfl)).2.2 exRowGood
      [("id", Value.int 1), ("DateDATE", Value.date ⟨2024, 2, 13⟩)]
      [exRowBad] (by rfl)⟩

/-- C8 counterexample: `"2024-2-3"` is not a well-formed `YYYY-MM-DD`
string, yet the conversion succeeds rather than failing — strptime
accepts unpadded month and day digits. -/
theorem strptime_unpadded_counterexample :
    strptimeYMDdate "2024-2-3" = Except.ok ⟨2024, 2, 3⟩ := by
  rfl

/-- C8 amended: conversion succeeds for every valid calendar date written
in zero-padded `YYYY-MM-DD` form (years 1..9999), yielding the
corresponding date — and, month and day digits being acceptable
unpadded, succeeds on some strings outside that form too; in particular
`"2024-02-13"` succeeds and `"13/02/2024"` fails. -/
theorem strptime_ymd_roundtrip (y m d : Nat)
    (hy : 1 ≤ y ∧ y ≤ 9999) (hm : 1 ≤ m ∧ m ≤ 12)
    (hd : 1 ≤ d ∧ d ≤ daysInMonth y m) :
    parseYMD (formatYMD y m d) = Except.ok ⟨y, m, d⟩
    ∧ strptimeYMDdate "2024-02-13" = Except.ok ⟨2024, 2, 13⟩
    ∧ (strptimeYMDdate "13/02/2024").isOk = false := by
  refine ⟨?_, by rfl, by rfl⟩
  have hsplit : splitDash (formatYMD y m d) = [pad4 y, pad2 m, pad2 d] := by
    unfold splitDash formatYMD
    rw [splitOnChar_append '-' _ (pad4 y) (pad4_ne_dash y),
        splitOnChar_append '-' _ (pad2 m) (pad2_ne_dash m),
        splitOnChar_no_sep '-' (pad2 d) (pad2_ne_dash d)]
  have hv4 : digitsToNat (pad4 y) = y := digitsToNat_pad4 y (by omega)
  have hv2m : digitsToNat (pad2 m) = m := digitsToNat_pad2 m (by omega)
  have hv2d : digitsToNat (pad2 d) = d := by
    have h31 := daysInMonth_le_31 y m
    exact digitsToNat_pad2 d (by omega)
  have hY : validYearTok (pad4 y) = true := by
    have hlen : (pad4 y).length = 4 := by simp [pad4]
    simp [validYearTok, hlen, pad4_all_digits]
  have hM : validMonthTok (pad2 m) = true := by
    have hlen : (pad2 m).length = 2 := by simp [pad2]
    simp [validMonthTok, hlen, pad2_all_digits, hv2m, hm.1, hm.2]
  have hD : validDayTok (pad2 d) = true := by
    have hlen : (pad2 d).length = 2 := by simp [pad2]
    have h31 := daysInMonth_le_31 y m
    simp [validDayTok, hlen, pad2_all_digits, hv2d, hd.1]
    omega
  unfold parseYMD
  rw [hsplit]
  dsimp only
  rw [hY, hM, hD]
  simp only [Bool.and_self, if_true]
  rw [hv4, hv2m, hv2d]
  unfold pydate
  rw [if_pos ⟨hy.1, hy.2, hm.1, hm.2, hd.1, hd.2⟩]

/-- C8 witness: the round trip at 2024-02-13. -/
theorem strptime_ymd_roundtrip_witness :
    parseYMD (formatYMD 2024 2 13) = Except.ok ⟨2024, 2, 13⟩
    ∧ strptimeYMDdate "2024-02-13" = Except.ok ⟨2024, 2, 13⟩
    ∧ (strptimeYMDdate "13/02/2024").isOk = false :=
  strptime_ymd_roundtrip 2024 2 13 (by decide) (by decide) (by decide)

end VscDev
